import Mathlib

/-!
# Boost search engine front end (`src/web/script.js`)

A shallow embedding of the `SearchEngine` class: the page elements it owns are
fields of `Page`, its methods are functions on `Page`, and what it does to the
outside world (`alert`, `fetch`, `console`, scrolling) is appended to
`Page.effects` in program order.

JavaScript strings are lists of characters (Unicode scalar values, so a string is
always well-formed UTF-16); the text of the search box is such a string.  The
argument of `searchAPI` is an arbitrary string, which may hold unpaired
surrogates.  Values that arrive from the server
are `Json` values; the weakly typed operations the code performs on them
(property access, truthiness, `ToString`) follow ECMAScript.  A number is kept
as the three observations the program makes of it.  Host functions that are not
part of the repository and cannot be written down here (`toLowerCase` over all
of Unicode) are arguments of the functions that call them.

`performSearch` is an `async` method.  It is split at its suspension point:
`performSearchStart` runs up to the moment the request is issued, and
`performSearchResume` runs from the moment the answer is known; the answer and
the measured time are arguments.
-/

namespace BoostSearch

set_option maxRecDepth 100000

/-- A JavaScript string. -/
abbrev Str := List Char

/-! ## Values -/

/-- A JavaScript number, as far as this program looks at it: whether it is
`0` (for truthiness and `=== 0`), its `ToString` text, and its `toFixed(3)` text. -/
structure JsNumber where
  isZero : Bool
  text : Str
  fixed3 : Str

/-- A value produced by `response.json()`. An object is its list of own
properties. -/
inductive Json where
  | null : Json
  | bool (b : Bool) : Json
  | num (n : JsNumber) : Json
  | str (s : Str) : Json
  | arr (xs : List Json) : Json
  | obj (kvs : List (Str × Json)) : Json

/-- What a `throw` carries. -/
inductive JsError where
  | networkError : JsError
  | httpError (status : Nat) : JsError
  | syntaxError : JsError
  | backendError (message : Str) : JsError
  | typeError : JsError
  | uriError : JsError

mutual
/-- ECMAScript `ToString` on a JSON value. An array is its elements joined by commas.
An object without an own `toString` property is `[object Object]`; with one (which,
coming from JSON, is not callable) the conversion throws a `TypeError`. -/
def Json.toStr : Json → Except JsError Str
  | .null => .ok "null".toList
  | .bool true => .ok "true".toList
  | .bool false => .ok "false".toList
  | .num n => .ok n.text
  | .str s => .ok s
  | .arr xs => Json.joinElems xs
  | .obj kvs =>
    if (kvs.lookup "toString".toList).isSome then .error .typeError
    else .ok "[object Object]".toList
/-- The text of `Array.prototype.join(",")`. -/
def Json.joinElems : List Json → Except JsError Str
  | [] => .ok []
  | [x] => Json.elemStr x
  | x :: y :: rest =>
    match Json.elemStr x with
    | .error e => .error e
    | .ok first =>
      match Json.joinElems (y :: rest) with
      | .error e => .error e
      | .ok others => .ok (first ++ ',' :: others)
/-- One element inside `join`: `null` contributes the empty string. -/
def Json.elemStr : Json → Except JsError Str
  | .null => .ok []
  | .bool true => .ok "true".toList
  | .bool false => .ok "false".toList
  | .num n => .ok n.text
  | .str s => .ok s
  | .arr xs => Json.joinElems xs
  | .obj kvs =>
    if (kvs.lookup "toString".toList).isSome then .error .typeError
    else .ok "[object Object]".toList
end

/-- Truthiness of a JSON value. -/
def Json.truthy : Json → Bool
  | .null => false
  | .bool b => b
  | .num n => !n.isZero
  | .str s => !s.isEmpty
  | .arr _ => true
  | .obj _ => true

/-- Truthiness of the result of a property access (`none` is `undefined`). -/
def truthy : Option Json → Bool
  | none => false
  | some v => v.truthy

/-- The own property `key` of a value that is not `null`: an object's entry, and
`undefined` on anything else. -/
def Json.own (v : Json) (key : String) : Option Json :=
  match v with
  | .obj kvs => kvs.lookup key.toList
  | _ => none

/-- The property access `v.key` for the keys this program reads (`error`, `results`,
`title`, `content`, `url`, `score`), none of which lives on a prototype:
`null.key` throws, an object yields its own property, anything else `undefined`. -/
def getField (v : Json) (key : String) : Except JsError (Option Json) :=
  match v with
  | .null => .error .typeError
  | _ => .ok (v.own key)

/-- The conversion to `DOMString?` done by the `textContent` setter followed by the
rule that a null value is the empty string. -/
def domText : Option Json → Except JsError Str
  | none => .ok []
  | some .null => .ok []
  | some v => v.toStr

/-- The `length` of a string counts UTF-16 code units. -/
def utf16Length (s : Str) : Nat :=
  (s.map fun c => if c.toNat < 0x10000 then 1 else 2).sum

/-! ## `escapeHtml` -/

/-- The HTML fragment serialisation of one character of a text node. -/
def escapeChar (c : Char) : Str :=
  if c = '&' then "&amp;".toList
  else if c = '\u00a0' then "&nbsp;".toList
  else if c = '<' then "&lt;".toList
  else if c = '>' then "&gt;".toList
  else [c]

/-- Embeds `escapeHtml(text)`: a fresh `div` receives `text` as its only text node
and is serialised with `innerHTML`. -/
def escapeHtml (text : Str) : Str :=
  text.flatMap escapeChar

/-! ## Page state -/

/-- What the program does to the world outside the page elements. -/
inductive Effect where
  | alert (message : Str) : Effect
  | fetch (url : Str) : Effect
  | consoleLog (data : Json) : Effect
  | consoleError (e : JsError) : Effect
  | scrollIntoView : Effect

/-- The elements looked up in the constructor, each reduced to the properties
the class reads or writes. -/
structure Page where
  /-- `searchInput.value`. -/
  searchInput : Str
  /-- `resultsSection.style.display`. -/
  resultsSectionDisplay : Str
  /-- The markup assigned to `resultsList.innerHTML`. -/
  resultsList : Str
  /-- `resultsCount.textContent`. -/
  resultsCount : Str
  /-- `searchTime.textContent`. -/
  searchTime : Str
  /-- `loading.style.display`. -/
  loadingDisplay : Str
  /-- The markup assigned to `suggestions.innerHTML`. -/
  suggestions : Str
  /-- `suggestions.style.display`. -/
  suggestionsDisplay : Str
  /-- Alerts, requests, console output and scrolling so far, oldest first. -/
  effects : List Effect

/-- Appends one effect. -/
def Page.emit (p : Page) (e : Effect) : Page :=
  { p with effects := p.effects ++ [e] }

/-- Embeds `showLoading`. -/
def showLoading (p : Page) : Page :=
  { p with loadingDisplay := "block".toList, resultsSectionDisplay := "none".toList }

/-- Embeds `hideLoading`. -/
def hideLoading (p : Page) : Page :=
  { p with loadingDisplay := "none".toList }

/-- Embeds `hideSuggestions`. -/
def hideSuggestions (p : Page) : Page :=
  { p with suggestionsDisplay := "none".toList }

/-- The markup `showError` builds for a message. -/
def errorHTML (message : Str) : Str :=
  "\n            <div class=\"error-message\">\n                <h3>出现错误</h3>\n                <p>".toList
    ++ escapeHtml message
    ++ "</p>\n            </div>\n        ".toList

/-- Embeds `showError`. -/
def showError (message : Str) (p : Page) : Page :=
  { p with resultsList := errorHTML message, resultsSectionDisplay := "block".toList }

/-! ## Rendering results -/

/-- Embeds `createResultHTML`. The three text fields go through the `textContent`
setter and `escapeHtml`; `result.score.toFixed(3)` throws unless the score is a
number. -/
def createResultHTML (result : Json) : Except JsError Str := do
  let title := escapeHtml (← domText (← getField result "title"))
  let content := escapeHtml (← domText (← getField result "content"))
  let url := escapeHtml (← domText (← getField result "url"))
  let score ← match ← getField result "score" with
    | some (.num n) => pure n.fixed3
    | _ => throw JsError.typeError
  return "\n            <div class=\"result-item\">\n                <a href=\"".toList
    ++ url ++ "\" class=\"result-title\" target=\"_blank\">".toList
    ++ title ++ "</a>\n                <div class=\"result-content\">".toList
    ++ content
    ++ "</div>\n                <div class=\"result-meta\">\n                    <a href=\"".toList
    ++ url ++ "\" class=\"result-url\" target=\"_blank\">".toList
    ++ url ++ "</a>\n                    <span class=\"result-score\">相关度: ".toList
    ++ score
    ++ "</span>\n                </div>\n            </div>\n        ".toList

/-- The placeholder shown for an empty result list. -/
def noResultsHTML : Str :=
  "\n                <div class=\"no-results\">\n                    <h3>未找到相关结果</h3>\n                    <p>请尝试使用不同的关键词或检查拼写</p>\n                </div>\n            ".toList

/-- The text of `results.length` inside the template literal. `results` is never `null`
here. -/
def lengthText : Json → Except JsError Str
  | .arr xs => .ok (Nat.repr xs.length).toList
  | .str s => .ok (Nat.repr (utf16Length s)).toList
  | .obj kvs =>
    match kvs.lookup "length".toList with
    | some v => v.toStr
    | none => .ok "undefined".toList
  | _ => .ok "undefined".toList

/-- The test `results.length === 0`. -/
def lengthIsZero : Json → Bool
  | .arr xs => xs.length == 0
  | .str s => utf16Length s == 0
  | .obj kvs =>
    match kvs.lookup "length".toList with
    | some (.num n) => n.isZero
    | _ => false
  | _ => false

/-- The expression `results.map(result => this.createResultHTML(result)).join('')`:
only an array has a callable `map`. -/
def renderAll : Json → Except JsError Str
  | .arr xs => do
    let blocks ← xs.mapM createResultHTML
    return blocks.flatten
  | _ => .error .typeError

/-- Embeds `displayResults`. The page is returned also when an exception leaves the
method, with the writes made up to that point. -/
def displayResults (results : Json) (searchTime : JsNumber) (p : Page) :
    Page × Except JsError Unit :=
  match results with
  | .null => (p, .error .typeError)
  | _ =>
    match lengthText results with
    | .error e => (p, .error e)
    | .ok count =>
      let p := { p with resultsCount := "找到 ".toList ++ count ++ " 个结果".toList }
      let p := { p with searchTime := "用时 ".toList ++ searchTime.fixed3 ++ " 秒".toList }
      let rendered : Except JsError Str :=
        if lengthIsZero results then .ok noResultsHTML else renderAll results
      match rendered with
      | .error e => (p, .error e)
      | .ok html =>
        let p := { p with resultsList := html }
        let p := { p with resultsSectionDisplay := "block".toList }
        (p.emit .scrollIntoView, .ok ())

/-! ## The search call -/

/-- The characters `trim` strips: ECMAScript white space and line terminators. -/
def isTrimSpace (c : Char) : Bool :=
  c.toNat ∈ [0x9, 0xA, 0xB, 0xC, 0xD, 0x20, 0xA0, 0x1680, 0x2028, 0x2029, 0x202F, 0x205F,
    0x3000, 0xFEFF] || (0x2000 ≤ c.toNat && c.toNat ≤ 0x200A)

/-- Embeds `String.prototype.trim`. -/
def trim (s : Str) : Str :=
  ((s.dropWhile isTrimSpace).reverse.dropWhile isTrimSpace).reverse

/-- The UTF-8 bytes of a code point. -/
def utf8Bytes (n : Nat) : List Nat :=
  if n < 0x80 then [n]
  else if n < 0x800 then [0xC0 + n / 64, 0x80 + n % 64]
  else if n < 0x10000 then [0xE0 + n / 4096, 0x80 + n / 64 % 64, 0x80 + n % 64]
  else [0xF0 + n / 262144, 0x80 + n / 4096 % 64, 0x80 + n / 64 % 64, 0x80 + n % 64]

/-- One upper-case hexadecimal digit. -/
def hexDigit (n : Nat) : Char :=
  "0123456789ABCDEF".toList.getD n '0'

/-- Embeds `encodeURIComponent` on one character of a well-formed string. -/
def encodeChar (c : Char) : Str :=
  if c.isAlphanum || c ∈ "-_.!~*'()".toList then [c]
  else (utf8Bytes c.toNat).flatMap fun b => ['%', hexDigit (b / 16), hexDigit (b % 16)]

/-- Embeds `encodeURIComponent` on a well-formed string, where it cannot throw. -/
def encodeURIComponent (s : Str) : Str :=
  s.flatMap encodeChar

/-- A code point of an arbitrary JavaScript string, as `CodePointAt` reads it: a
Unicode scalar value, or a surrogate code unit that has no partner. -/
inductive CodePoint where
  | scalar (c : Char) : CodePoint
  | unpaired (unit : Nat) : CodePoint

/-- An arbitrary JavaScript string, which need not be well-formed UTF-16. -/
abbrev JsString := List CodePoint

/-- A well-formed string as an arbitrary one. -/
def wellFormed (s : Str) : JsString :=
  s.map .scalar

/-- Embeds `encodeURIComponent` on an arbitrary string: an unpaired surrogate makes
it throw a `URIError`. -/
def encodeURIComponentJs : JsString → Except JsError Str
  | [] => .ok []
  | .unpaired _ :: _ => .error .uriError
  | .scalar c :: rest =>
    match encodeURIComponentJs rest with
    | .error e => .error e
    | .ok encoded => .ok (encodeChar c ++ encoded)

/-- What the server's answer turns out to be once `fetch` has resolved: the status
line and the value `response.json()` gives, `none` when that promise is rejected
because the body is not JSON. -/
structure Response where
  status : Nat
  body : Option Json

/-- The getter `response.ok`: the status is in the range 200 to 299. -/
def Response.ok (r : Response) : Bool :=
  200 ≤ r.status && r.status ≤ 299

/-- How the promise returned by `fetch` settles. -/
inductive FetchOutcome where
  | rejected : FetchOutcome
  | resolved (r : Response) : FetchOutcome

/-- The message of `new Error(value)`, a `ToString` conversion. -/
def errorMessage : Option Json → Except JsError Str
  | none => .ok []
  | some v => v.toStr

/-- The expression `value || []`. -/
def orEmptyArray : Option Json → Json
  | none => .arr []
  | some v => if v.truthy then v else .arr []

/-- The part of `searchAPI` that runs before the first `await`, for a well-formed
query: the request is issued. -/
def searchAPIRequest (query : Str) (p : Page) : Page :=
  p.emit (.fetch ("/api/search?q=".toList ++ encodeURIComponent query))

/-- The part of `searchAPI` after `fetch` has settled. -/
def searchAPIResponse (net : FetchOutcome) (p : Page) : Page × Except JsError Json :=
  match net with
  | .rejected => (p, .error .networkError)
  | .resolved response =>
    if !response.ok then (p, .error (.httpError response.status))
    else
      match response.body with
      | none => (p, .error .syntaxError)
      | some data =>
        let p := p.emit (.consoleLog data)
        match getField data "error" with
        | .error e => (p, .error e)
        | .ok err =>
          if truthy err then
            match errorMessage err with
            | .error e => (p, .error e)
            | .ok message => (p, .error (.backendError message))
          else
            match getField data "results" with
            | .error e => (p, .error e)
            | .ok results => (p, .ok (orEmptyArray results))

/-- Embeds `searchAPI` for an arbitrary query string: when `encodeURIComponent`
throws, no request is issued. -/
def searchAPI (query : JsString) (net : FetchOutcome) (p : Page) :
    Page × Except JsError Json :=
  match encodeURIComponentJs query with
  | .error e => (p, .error e)
  | .ok encoded =>
    searchAPIResponse net (p.emit (.fetch ("/api/search?q=".toList ++ encoded)))

/-- The message handed to `showError` by `performSearch`. -/
def genericMessage : Str := "搜索失败，请稍后重试".toList

/-- The part of `performSearch` that runs up to the suspension at `await`: the page at
that moment and, when a request was issued, the query. -/
def performSearchStart (p : Page) : Page × Option Str :=
  let query := trim p.searchInput
  if query.isEmpty then (p.emit (.alert "请输入搜索关键词".toList), none)
  else
    let p := showLoading p
    let p := hideSuggestions p
    (searchAPIRequest query p, some query)

/-- The part of `performSearch` that runs once `fetch` has settled, on the page as it
is at that moment: the rest of the `try` block, the `catch` and the `finally`.
`elapsed` is `(endTime - startTime) / 1000`. -/
def performSearchResume (net : FetchOutcome) (elapsed : JsNumber) (p : Page) : Page :=
  let attempt : Page × Except JsError Unit :=
    match searchAPIResponse net p with
    | (p, .error e) => (p, .error e)
    | (p, .ok results) => displayResults results elapsed p
  let p :=
    match attempt with
    | (p, .ok ()) => p
    | (p, .error e) => showError genericMessage (p.emit (.consoleError e))
  hideLoading p

/-- Embeds `performSearch`, with nothing else touching the page while the request is
in flight. -/
def performSearch (net : FetchOutcome) (elapsed : JsNumber) (p : Page) : Page :=
  match performSearchStart p with
  | (p, none) => p
  | (p, some _) => performSearchResume net elapsed p

/-! ## Suggestions -/

/-- The candidate list inside `generateSuggestions`. -/
def commonQueries : List Str :=
  ["C++ 教程".toList, "Boost 库使用".toList, "搜索引擎原理".toList, "倒排索引".toList,
   "TF-IDF 算法".toList, "文本处理".toList, "网络编程".toList, "多线程编程".toList]

/-- Embeds `String.prototype.includes`: the search string starts at some position. -/
def includes : Str → Str → Bool
  | [], q => q.isPrefixOf []
  | c :: s, q => q.isPrefixOf (c :: s) || includes s q

/-- Embeds `generateSuggestions`; `toLowerCase` is the host's
`String.prototype.toLowerCase`. -/
def generateSuggestions (toLowerCase : Str → Str) (query : Str) : List Str :=
  (commonQueries.filter fun suggestion =>
    includes (toLowerCase suggestion) (toLowerCase query)).take 5

/-- One item of the suggestion panel, as the template literal in `showSuggestions`
writes it. -/
def suggestionHTML (suggestion : Str) : Str :=
  "\n            <div class=\"suggestion-item\" onclick=\"searchEngine.selectSuggestion('".toList
    ++ suggestion ++ "')\">\n                ".toList
    ++ escapeHtml suggestion
    ++ "\n            </div>\n        ".toList

/-- Embeds `showSuggestions`. -/
def showSuggestions (suggestions : List Str) (p : Page) : Page :=
  if suggestions.length == 0 then hideSuggestions p
  else
    { p with
      suggestions := (suggestions.map suggestionHTML).flatten,
      suggestionsDisplay := "block".toList }

/-- Embeds `handleInputChange`. -/
def handleInputChange (toLowerCase : Str → Str) (value : Str) (p : Page) : Page :=
  if utf16Length value < 2 then hideSuggestions p
  else showSuggestions (generateSuggestions toLowerCase value) p

/-! ## Well-typed results -/

/-- A result record of the shape the server is expected to send. -/
structure SearchResult where
  title : Str
  content : Str
  url : Str
  score : JsNumber

/-- The JSON object of a result record. -/
def SearchResult.toJson (r : SearchResult) : Json :=
  .obj [("title".toList, .str r.title), ("content".toList, .str r.content),
    ("url".toList, .str r.url), ("score".toList, .num r.score)]

/-- ASCII lower-casing, which is what `toLowerCase` does on a string whose other
characters have no case. -/
def asciiLower (s : Str) : Str :=
  s.map Char.toLower

/-- The block of a well-typed record: the template of `createResultHTML` filled with
the escaped title, content and url and the score to three decimals. -/
def resultBlock (r : SearchResult) : Str :=
  "\n            <div class=\"result-item\">\n                <a href=\"".toList
    ++ escapeHtml r.url ++ "\" class=\"result-title\" target=\"_blank\">".toList
    ++ escapeHtml r.title ++ "</a>\n                <div class=\"result-content\">".toList
    ++ escapeHtml r.content
    ++ "</div>\n                <div class=\"result-meta\">\n                    <a href=\"".toList
    ++ escapeHtml r.url ++ "\" class=\"result-url\" target=\"_blank\">".toList
    ++ escapeHtml r.url ++ "</a>\n                    <span class=\"result-score\">相关度: ".toList
    ++ r.score.fixed3
    ++ "</span>\n                </div>\n            </div>\n        ".toList

/-- A freshly loaded page with `input` typed into the search box. -/
def idlePage (input : Str) : Page :=
  { searchInput := input, resultsSectionDisplay := "none".toList, resultsList := [],
    resultsCount := [], searchTime := [], loadingDisplay := "none".toList,
    suggestions := [], suggestionsDisplay := "none".toList, effects := [] }

/-- The record of the end-to-end scenario: one hit for `boost`. -/
def boostResult : SearchResult :=
  { title := "Boost库".toList, content := "...".toList, url := "http://x".toList,
    score := { isZero := false, text := "0.987".toList, fixed3 := "0.987".toList } }

/-- An elapsed time of 120 ms. -/
def elapsed120 : JsNumber :=
  { isZero := false, text := "0.12".toList, fixed3 := "0.120".toList }

/-- The failure condition in the words of the specification: the transport reports a
non-success status, the body cannot be parsed as JSON, or the body's `error` field is
present and non-empty (read as: truthy, which for a string is the same). -/
def specFailure : FetchOutcome → Bool
  | .rejected => false
  | .resolved r =>
    !r.ok ||
      match r.body with
      | none => true
      | some data =>
        match data.own "error" with
        | none => false
        | some v => v.truthy

/-- The suggestion item in the words of the specification: both places where the
suggestion's text is inserted hold `escapeHtml(suggestion)`. -/
def escapedSuggestionHTML (suggestion : Str) : Str :=
  "\n            <div class=\"suggestion-item\" onclick=\"searchEngine.selectSuggestion('".toList
    ++ escapeHtml suggestion ++ "')\">\n                ".toList
    ++ escapeHtml suggestion
    ++ "\n            </div>\n        ".toList

/-! ## Escaping -/

/-- Claim C1: for every string, the output of `escapeHtml` contains no literal `<`
character (so in particular none when the input contains `<script>`). -/
theorem escapeHtml_no_lt (s : Str) : '<' ∉ escapeHtml s := by
  intro h
  obtain ⟨c, -, hc⟩ := List.mem_flatMap.mp h
  unfold escapeChar at hc
  split_ifs at hc with h1 h2 h3 h4
  · revert hc; decide
  · revert hc; decide
  · revert hc; decide
  · revert hc; decide
  · rw [List.mem_singleton] at hc
    exact h3 hc.symm

/-- Claim C2, at the failing input: `escapeHtml` returns both quote characters
unchanged, and a result whose url holds a double quote is written into
`href="..."` with that quote intact, so the attribute ends inside the url. -/
theorem createResultHTML_url_quote_unescaped :
    escapeHtml "\"'".toList = "\"'".toList ∧
    createResultHTML (SearchResult.toJson
      { title := "t".toList, content := "c".toList,
        url := "x\" onmouseover=\"alert(1)".toList,
        score := { isZero := false, text := "0.5".toList, fixed3 := "0.500".toList } })
      = .ok ("\n            <div class=\"result-item\">\n                <a href=\"x\" onmouseover=\"alert(1)\" class=\"result-title\" target=\"_blank\">t</a>\n                <div class=\"result-content\">c</div>\n                <div class=\"result-meta\">\n                    <a href=\"x\" onmouseover=\"alert(1)\" class=\"result-url\" target=\"_blank\">x\" onmouseover=\"alert(1)</a>\n                    <span class=\"result-score\">相关度: 0.500</span>\n                </div>\n            </div>\n        ".toList) := by
  constructor <;> rfl

/-! ## Suggestions -/

/-- Claim C3 as stated fails for the method on an arbitrary list: for the suggestion
`a');alert('<b>` the markup is not the one with both insertions escaped, because the
argument of `selectSuggestion` in the `onclick` attribute is the text as it is. -/
theorem showSuggestions_onclick_not_escaped :
    (showSuggestions ["a');alert('<b>".toList] (idlePage [])).suggestions
      ≠ (["a');alert('<b>".toList].map escapedSuggestionHTML).flatten ∧
    (showSuggestions ["a');alert('<b>".toList] (idlePage [])).suggestions =
      "\n            <div class=\"suggestion-item\" onclick=\"searchEngine.selectSuggestion('a');alert('<b>')\">\n                a');alert('&lt;b&gt;\n            </div>\n        ".toList := by
  constructor
  · decide
  · rfl

/-- On each of the eight candidates the item that `showSuggestions` writes is the item
with both insertions escaped. -/
theorem suggestionHTML_candidate (c : Str) (hc : c ∈ commonQueries) :
    suggestionHTML c = escapedSuggestionHTML c := by
  simp only [commonQueries, List.mem_cons, List.mem_singleton, List.not_mem_nil,
    or_false] at hc
  rcases hc with rfl | rfl | rfl | rfl | rfl | rfl | rfl | rfl <;> rfl

/-- What `generateSuggestions` returns is made of candidates. -/
theorem generateSuggestions_subset (toLowerCase : Str → Str) (query s : Str)
    (hs : s ∈ generateSuggestions toLowerCase query) : s ∈ commonQueries := by
  unfold generateSuggestions at hs
  exact (List.mem_filter.mp (List.mem_of_mem_take hs)).1

/-- Claim C3, amended: for every non-empty list of suggestions taken from the fixed
candidate list, which is all that `generateSuggestions` hands to `showSuggestions`, every
place where a suggestion's text is inserted holds `escapeHtml(suggestion)`: the markup is
the concatenation of the items with both insertions escaped, and the panel is shown.
For an arbitrary string the body of the item holds `escapeHtml(suggestion)`. -/
theorem showSuggestions_escaped_on_candidates (suggestions : List Str) (p : Page)
    (hne : suggestions ≠ []) (hcand : ∀ s ∈ suggestions, s ∈ commonQueries) :
    (showSuggestions suggestions p).suggestions
      = (suggestions.map escapedSuggestionHTML).flatten ∧
    (showSuggestions suggestions p).suggestionsDisplay = "block".toList ∧
    (∀ toLowerCase query, ∀ s ∈ generateSuggestions toLowerCase query, s ∈ commonQueries) ∧
    (∀ s : Str,
      ("\n                ".toList ++ escapeHtml s ++ "\n            </div>\n        ".toList)
        <:+ suggestionHTML s) ∧
    (showSuggestions ["C++ 教程".toList, "TF-IDF 算法".toList] p).suggestions =
      "\n            <div class=\"suggestion-item\" onclick=\"searchEngine.selectSuggestion('C++ 教程')\">\n                C++ 教程\n            </div>\n        \n            <div class=\"suggestion-item\" onclick=\"searchEngine.selectSuggestion('TF-IDF 算法')\">\n                TF-IDF 算法\n            </div>\n        ".toList ∧
    ("\n                &lt;b&gt; &amp;&nbsp;\"\n            </div>\n        ".toList
      <:+ (showSuggestions ["<b> &\u00a0\"".toList] p).suggestions) := by
  have hlen : (suggestions.length == 0) = false := by
    cases suggestions with
    | nil => exact absurd rfl hne
    | cons a l => rfl
  refine ⟨?_, ?_, generateSuggestions_subset, ?_, rfl, ?_⟩
  · simp only [showSuggestions, hlen]
    exact congrArg List.flatten
      (List.map_congr_left fun s hs => suggestionHTML_candidate s (hcand s hs))
  · simp only [showSuggestions, hlen]
    rfl
  · intro s
    refine ⟨"\n            <div class=\"suggestion-item\" onclick=\"searchEngine.selectSuggestion('".toList
      ++ s ++ "')\">".toList, ?_⟩
    simp only [suggestionHTML, List.append_assoc]
    rfl
  · exact ⟨"\n            <div class=\"suggestion-item\" onclick=\"searchEngine.selectSuggestion('<b> &\u00a0\"')\">".toList, rfl⟩

/-- Claim C3 for what `generateSuggestions` returns with ASCII lower-casing on the
query `编程`. -/
theorem showSuggestions_escaped_on_candidates_witness :
    generateSuggestions asciiLower "编程".toList ≠ [] ∧
    (showSuggestions (generateSuggestions asciiLower "编程".toList) (idlePage [])).suggestions
      = ((generateSuggestions asciiLower "编程".toList).map escapedSuggestionHTML).flatten :=
  ⟨by decide,
   (showSuggestions_escaped_on_candidates (generateSuggestions asciiLower "编程".toList)
     (idlePage []) (by decide)
     (generateSuggestions_subset asciiLower "编程".toList)).1⟩

/-- The search of `includes` finds exactly the contiguous occurrences. -/
theorem includes_iff_infix (s q : Str) : includes s q = true ↔ q <:+: s := by
  induction s with
  | nil => simp [includes, List.infix_nil]
  | cons c s ih =>
    rw [includes, Bool.or_eq_true, ih, List.infix_cons_iff, List.isPrefixOf_iff_prefix]

/-- The result of `generateSuggestions` depends on the host's `toLowerCase` only through
its values on the query and on the candidates. -/
theorem generateSuggestions_congr (f g : Str → Str) (q : Str)
    (hq : f q = g q) (hc : ∀ c ∈ commonQueries, f c = g c) :
    generateSuggestions f q = generateSuggestions g q := by
  unfold generateSuggestions
  congr 1
  apply List.filter_congr
  intro c hmem
  rw [hq, hc c hmem]

/-- Claim C4: with the host's `toLowerCase` (which lower-cases ASCII letters and leaves
the other characters of the candidates alone), `generateSuggestions(q)` is the first five
of the candidates whose lower-cased text contains the lower-cased query as a substring,
in the candidates' order; it has at most five elements, is a sublist of the candidate
list, has exactly five elements when all eight candidates match, as for the empty
query, and for `c++` it is the single candidate `C++ 教程`. -/
theorem generateSuggestions_spec (toLowerCase : Str → Str)
    (hlow : ∀ s ∈ [] :: "c++".toList :: commonQueries, toLowerCase s = asciiLower s) :
    (∀ q, generateSuggestions toLowerCase q =
      (commonQueries.filter fun c => decide (toLowerCase q <:+: toLowerCase c)).take 5) ∧
    (∀ q, (generateSuggestions toLowerCase q).length ≤ 5) ∧
    (∀ q, (generateSuggestions toLowerCase q).Sublist commonQueries) ∧
    (∀ q, (∀ c ∈ commonQueries, toLowerCase q <:+: toLowerCase c) →
      (generateSuggestions toLowerCase q).length = 5) ∧
    generateSuggestions toLowerCase [] = commonQueries.take 5 ∧
    (generateSuggestions toLowerCase []).length = 5 ∧
    generateSuggestions toLowerCase "c++".toList = ["C++ 教程".toList] := by
  have hfilter : ∀ q, generateSuggestions toLowerCase q =
      (commonQueries.filter fun c => decide (toLowerCase q <:+: toLowerCase c)).take 5 := by
    intro q
    unfold generateSuggestions
    congr 1
    apply List.filter_congr
    intro c _
    rw [Bool.eq_iff_iff, includes_iff_infix, decide_eq_true_iff]
  have hcands : ∀ c ∈ commonQueries, toLowerCase c = asciiLower c := fun c hc =>
    hlow c (List.mem_cons_of_mem _ (List.mem_cons_of_mem _ hc))
  have hempty : generateSuggestions toLowerCase [] = commonQueries.take 5 := by
    rw [generateSuggestions_congr toLowerCase asciiLower []
      (hlow [] (List.mem_cons_self _ _)) hcands]
    decide
  refine ⟨hfilter, ?_, ?_, ?_, hempty, ?_, ?_⟩
  · intro q
    unfold generateSuggestions
    exact List.length_take_le _ _
  · intro q
    unfold generateSuggestions
    exact (List.take_sublist _ _).trans (List.filter_sublist _)
  · intro q hall
    rw [hfilter q, List.filter_eq_self.mpr (fun c hc => decide_eq_true (hall c hc))]
    decide
  · rw [hempty]
    decide
  · rw [generateSuggestions_congr toLowerCase asciiLower "c++".toList
      (hlow _ (List.mem_cons_of_mem _ (List.mem_cons_self _ _))) hcands]
    decide

/-- Claim C4 at ASCII lower-casing, which satisfies the hypothesis on the host. -/
theorem generateSuggestions_spec_witness :
    (∀ s ∈ [] :: "c++".toList :: commonQueries, asciiLower s = asciiLower s) ∧
    generateSuggestions asciiLower "c++".toList = ["C++ 教程".toList] ∧
    (generateSuggestions asciiLower []).length = 5 :=
  ⟨fun _ _ => rfl,
   (generateSuggestions_spec asciiLower (fun _ _ => rfl)).2.2.2.2.2.2,
   (generateSuggestions_spec asciiLower (fun _ _ => rfl)).2.2.2.2.2.1⟩

/-! ## The search flow -/

/-- Claim C5: when the trimmed input is empty, `performSearch` only raises the alert:
no request is issued and the loading indicator, the results surface and the
suggestion panel are as they were. -/
theorem performSearch_empty_query (net : FetchOutcome) (elapsed : JsNumber) (p : Page)
    (h : trim p.searchInput = []) :
    (performSearchStart p).2 = none ∧
    (performSearch net elapsed p).effects
      = p.effects ++ [Effect.alert "请输入搜索关键词".toList] ∧
    (performSearch net elapsed p).loadingDisplay = p.loadingDisplay ∧
    (performSearch net elapsed p).resultsSectionDisplay = p.resultsSectionDisplay ∧
    (performSearch net elapsed p).resultsList = p.resultsList ∧
    (performSearch net elapsed p).resultsCount = p.resultsCount ∧
    (performSearch net elapsed p).searchTime = p.searchTime ∧
    (performSearch net elapsed p).suggestions = p.suggestions ∧
    (performSearch net elapsed p).suggestionsDisplay = p.suggestionsDisplay ∧
    (performSearch net elapsed p).searchInput = p.searchInput := by
  have hs : performSearchStart p = (p.emit (.alert "请输入搜索关键词".toList), none) := by
    simp [performSearchStart, h]
  have hp : performSearch net elapsed p = p.emit (.alert "请输入搜索关键词".toList) := by
    simp [performSearch, hs]
  rw [hp, hs]
  exact ⟨rfl, rfl, rfl, rfl, rfl, rfl, rfl, rfl, rfl, rfl⟩

/-- Claim C5 on a page whose input holds only blanks. -/
theorem performSearch_empty_query_witness :
    trim (idlePage " \t ".toList).searchInput = [] ∧
    (performSearch (.resolved ⟨200, none⟩) elapsed120 (idlePage " \t ".toList)).effects
      = [Effect.alert "请输入搜索关键词".toList] :=
  ⟨by decide,
   (performSearch_empty_query (.resolved ⟨200, none⟩) elapsed120 (idlePage " \t ".toList)
     (by decide)).2.1⟩

/-- Claim C6: for a non-empty trimmed input the request is issued on a page whose
loading indicator is already shown, and whatever the outcome of the call (results, a
backend error, a bad status, an unparsable body, an exception while rendering), the
indicator is hidden once `performSearch` has run to its end. -/
theorem performSearch_hides_loading (p : Page) (h : trim p.searchInput ≠ []) :
    performSearchStart p
      = (searchAPIRequest (trim p.searchInput) (hideSuggestions (showLoading p)),
         some (trim p.searchInput)) ∧
    (hideSuggestions (showLoading p)).loadingDisplay = "block".toList ∧
    (performSearchStart p).1.loadingDisplay = "block".toList ∧
    (performSearchStart p).1.effects
      = p.effects ++
        [Effect.fetch ("/api/search?q=".toList ++ encodeURIComponent (trim p.searchInput))] ∧
    (∀ net elapsed, (performSearch net elapsed p).loadingDisplay = "none".toList) ∧
    (∀ net elapsed q, (performSearchResume net elapsed q).loadingDisplay = "none".toList) := by
  have hs : performSearchStart p
      = (searchAPIRequest (trim p.searchInput) (hideSuggestions (showLoading p)),
         some (trim p.searchInput)) := by
    simp [performSearchStart, h]
  refine ⟨hs, rfl, ?_, ?_, ?_, fun _ _ _ => rfl⟩
  · rw [hs]; rfl
  · rw [hs]; rfl
  · intro net elapsed
    simp only [performSearch, hs]
    rfl

/-- Claim C6 for the query `boost` answered with status 500. -/
theorem performSearch_hides_loading_witness :
    trim (idlePage "boost".toList).searchInput ≠ [] ∧
    (performSearch (.resolved ⟨500, none⟩) elapsed120 (idlePage "boost".toList)).loadingDisplay
      = "none".toList :=
  ⟨by decide,
   (performSearch_hides_loading (idlePage "boost".toList) (by decide)).2.2.2.2.1
     (.resolved ⟨500, none⟩) elapsed120⟩

/-- Claim C7, at the failing inputs: `showError` replaces the results list only.
After a search with one hit, a search answered with status 500 shows the error block
together with the count and time labels of the earlier search; and on a fresh page, an
answer whose single result has no score shows the error block together with the count
that the failing call itself wrote before the exception. -/
theorem performSearch_error_keeps_labels :
    (performSearch (.resolved ⟨500, none⟩) elapsed120
      (performSearch
        (.resolved ⟨200, some (.obj [("results".toList, .arr [boostResult.toJson])])⟩)
        elapsed120 (idlePage "boost".toList))).resultsList
      = errorHTML genericMessage ∧
    (performSearch (.resolved ⟨500, none⟩) elapsed120
      (performSearch
        (.resolved ⟨200, some (.obj [("results".toList, .arr [boostResult.toJson])])⟩)
        elapsed120 (idlePage "boost".toList))).resultsSectionDisplay
      = "block".toList ∧
    (performSearch (.resolved ⟨500, none⟩) elapsed120
      (performSearch
        (.resolved ⟨200, some (.obj [("results".toList, .arr [boostResult.toJson])])⟩)
        elapsed120 (idlePage "boost".toList))).resultsCount
      = "找到 1 个结果".toList ∧
    (performSearch (.resolved ⟨500, none⟩) elapsed120
      (performSearch
        (.resolved ⟨200, some (.obj [("results".toList, .arr [boostResult.toJson])])⟩)
        elapsed120 (idlePage "boost".toList))).searchTime
      = "用时 0.120 秒".toList ∧
    (performSearch (.resolved ⟨200, some (.obj [("results".toList, .arr [.obj []])])⟩)
      elapsed120 (idlePage "boost".toList)).resultsList
      = errorHTML genericMessage ∧
    (performSearch (.resolved ⟨200, some (.obj [("results".toList, .arr [.obj []])])⟩)
      elapsed120 (idlePage "boost".toList)).resultsCount
      = "找到 1 个结果".toList := by
  refine ⟨?_, ?_, ?_, ?_, ?_, ?_⟩ <;> rfl

/-- The outcome of the part of `searchAPI` after `fetch`, on an answer with a success
status and a JSON body other than `null`. -/
theorem searchAPIResponse_of_body (status : Nat) (data : Json) (p : Page)
    (hok : Response.ok ⟨status, some data⟩ = true) (hn : data ≠ .null) :
    (searchAPIResponse (.resolved ⟨status, some data⟩) p).2 =
      if truthy (data.own "error") then
        match errorMessage (data.own "error") with
        | .error e => .error e
        | .ok message => .error (.backendError message)
      else .ok (orEmptyArray (data.own "results")) := by
  have hf : ∀ key, getField data key = .ok (data.own key) := by
    intro key
    cases data <;> first | rfl | exact absurd rfl hn
  simp only [searchAPIResponse, hok, hf]
  by_cases ht : truthy (data.own "error") = true
  · simp only [ht, Bool.not_true, Bool.false_eq_true, if_false, if_true]
    cases errorMessage (data.own "error") <;> rfl
  · simp [ht]

/-- Whether `searchAPI` throws after `fetch` does not depend on the page it runs on. -/
theorem searchAPIResponse_snd (net : FetchOutcome) (p q : Page) :
    (searchAPIResponse net p).2 = (searchAPIResponse net q).2 := by
  cases net with
  | rejected => rfl
  | resolved r =>
    obtain ⟨status, body⟩ := r
    by_cases hok : Response.ok ⟨status, body⟩ = true
    · cases body with
      | none => simp [searchAPIResponse, hok]
      | some data =>
        by_cases hn : data = .null
        · subst hn
          simp [searchAPIResponse, hok, getField]
        · rw [searchAPIResponse_of_body status data p hok hn,
            searchAPIResponse_of_body status data q hok hn]
    · simp [searchAPIResponse, hok]

/-- On a well-formed string `encodeURIComponent` does not throw. -/
theorem encodeURIComponentJs_wellFormed (s : Str) :
    encodeURIComponentJs (wellFormed s) = .ok (encodeURIComponent s) := by
  induction s with
  | nil => rfl
  | cons c s ih =>
    have ih' : encodeURIComponentJs (List.map CodePoint.scalar s)
        = .ok (encodeURIComponent s) := ih
    simp only [wellFormed, List.map_cons, encodeURIComponentJs, ih']
    rfl

/-- For a well-formed query `searchAPI` issues the request and goes on with the answer. -/
theorem searchAPI_wellFormed (query : Str) (net : FetchOutcome) (p : Page) :
    searchAPI (wellFormed query) net p = searchAPIResponse net (searchAPIRequest query p) := by
  simp only [searchAPI, encodeURIComponentJs_wellFormed]
  rfl

/-- The encoding step throws exactly on a string that holds an unpaired surrogate. -/
theorem encodeURIComponentJs_error_iff (query : JsString) :
    (∃ e, encodeURIComponentJs query = .error e) ↔ ∃ u, CodePoint.unpaired u ∈ query := by
  induction query with
  | nil => simp [encodeURIComponentJs]
  | cons cp rest ih =>
    cases cp with
    | unpaired u =>
      exact ⟨fun _ => ⟨u, List.mem_cons_self _ _⟩, fun _ => ⟨.uriError, rfl⟩⟩
    | scalar c =>
      constructor
      · rintro ⟨e, he⟩
        have hrest : ∃ e, encodeURIComponentJs rest = .error e := by
          cases hr : encodeURIComponentJs rest with
          | error e' => exact ⟨e', rfl⟩
          | ok encoded => simp [encodeURIComponentJs, hr] at he
        obtain ⟨u, hu⟩ := ih.mp hrest
        exact ⟨u, List.mem_cons_of_mem _ hu⟩
      · rintro ⟨u, hu⟩
        have hu' : CodePoint.unpaired u ∈ rest := by
          rcases List.mem_cons.mp hu with h | h
          · exact CodePoint.noConfusion h
          · exact h
        obtain ⟨e, he⟩ := ih.mpr ⟨u, hu'⟩
        exact ⟨e, by simp [encodeURIComponentJs, he]⟩

/-- When `searchAPI` throws, the rest of `performSearch` writes the generic error block. -/
theorem performSearchResume_of_error (net : FetchOutcome) (elapsed : JsNumber) (p : Page)
    (e : JsError) (h : (searchAPIResponse net p).2 = .error e) :
    (performSearchResume net elapsed p).resultsList = errorHTML genericMessage := by
  unfold performSearchResume
  generalize searchAPIResponse net p = out at h
  obtain ⟨q, r⟩ := out
  subst h
  rfl

/-- Claim C8: whenever the search call fails, for whatever reason, the results list that
`performSearch` renders is the error block of the fixed message, a constant markup in which
neither the backend's error string nor the status occurs. -/
theorem performSearch_failure_generic (query : Str) (net : FetchOutcome) (p₀ : Page)
    (e : JsError) (hfail : (searchAPI (wellFormed query) net p₀).2 = .error e)
    (elapsed : JsNumber) (p : Page) (hq : trim p.searchInput ≠ []) :
    (performSearch net elapsed p).resultsList
      = "\n            <div class=\"error-message\">\n                <h3>出现错误</h3>\n                <p>搜索失败，请稍后重试</p>\n            </div>\n        ".toList ∧
    (∀ q, (performSearchResume net elapsed q).resultsList
      = "\n            <div class=\"error-message\">\n                <h3>出现错误</h3>\n                <p>搜索失败，请稍后重试</p>\n            </div>\n        ".toList) := by
  have hlit : errorHTML genericMessage
      = "\n            <div class=\"error-message\">\n                <h3>出现错误</h3>\n                <p>搜索失败，请稍后重试</p>\n            </div>\n        ".toList := by
    rfl
  rw [searchAPI_wellFormed] at hfail
  have hres : ∀ q, (performSearchResume net elapsed q).resultsList
      = errorHTML genericMessage := fun q =>
    performSearchResume_of_error net elapsed q e
      ((searchAPIResponse_snd net q (searchAPIRequest query p₀)).trans hfail)
  have hs : performSearchStart p
      = (searchAPIRequest (trim p.searchInput) (hideSuggestions (showLoading p)),
         some (trim p.searchInput)) := by
    simp [performSearchStart, hq]
  refine ⟨?_, fun q => (hres q).trans hlit⟩
  simp only [performSearch, hs]
  exact (hres _).trans hlit

/-- Claim C8 for the backend error `index unavailable`. -/
theorem performSearch_failure_generic_witness :
    (searchAPI (wellFormed "boost".toList)
        (.resolved ⟨200, some (.obj [("error".toList, .str "index unavailable".toList)])⟩)
        (idlePage "boost".toList)).2
      = .error (.backendError "index unavailable".toList) ∧
    trim (idlePage "boost".toList).searchInput ≠ [] ∧
    (performSearch
        (.resolved ⟨200, some (.obj [("error".toList, .str "index unavailable".toList)])⟩)
        elapsed120 (idlePage "boost".toList)).resultsList
      = "\n            <div class=\"error-message\">\n                <h3>出现错误</h3>\n                <p>搜索失败，请稍后重试</p>\n            </div>\n        ".toList :=
  ⟨rfl, by decide,
   (performSearch_failure_generic "boost".toList
     (.resolved ⟨200, some (.obj [("error".toList, .str "index unavailable".toList)])⟩)
     (idlePage "boost".toList) (.backendError "index unavailable".toList) rfl
     elapsed120 (idlePage "boost".toList) (by decide)).1⟩

/-! ## The search call contract -/

/-- Claim C9 as stated fails: `searchAPI` also throws in three cases outside the three
the claim lists. An answer with status 200 whose body is the JSON value `null` is
parsed and carries no error field, yet reading `data.error` from `null` is a
`TypeError`; when `fetch` is rejected there is no status and no body at all; and a
query holding an unpaired surrogate makes `encodeURIComponent` throw a `URIError`
before any request, whatever the server would have answered. -/
theorem searchAPI_fails_outside_specFailure :
    ¬ ((∃ e, (searchAPI (wellFormed "boost".toList) (.resolved ⟨200, some .null⟩)
          (idlePage "boost".toList)).2 = Except.error e) ↔
        specFailure (.resolved ⟨200, some .null⟩) = true) ∧
    ¬ ((∃ e, (searchAPI (wellFormed "boost".toList) .rejected (idlePage "boost".toList)).2
          = Except.error e) ↔
        specFailure .rejected = true) ∧
    ¬ ((∃ e, (searchAPI [.unpaired 0xD800]
          (.resolved ⟨200, some (.obj [("results".toList, .arr [])])⟩) (idlePage [])).2
          = Except.error e) ↔
        specFailure (.resolved ⟨200, some (.obj [("results".toList, .arr [])])⟩) = true) := by
  refine ⟨?_, ?_, ?_⟩
  · intro h
    exact absurd (h.mp ⟨.typeError, rfl⟩) (by decide)
  · intro h
    exact absurd (h.mp ⟨.networkError, rfl⟩) (by decide)
  · intro h
    exact absurd (h.mp ⟨.uriError, rfl⟩) (by decide)

/-- After `fetch`, `searchAPI` throws exactly on a rejected request, a status outside
200 to 299, a body that is not JSON, a `null` body, or a truthy `error` property. -/
theorem searchAPIResponse_fails_iff (net : FetchOutcome) (p : Page) :
    (∃ e, (searchAPIResponse net p).2 = Except.error e) ↔
      (specFailure net = true ∨ net = .rejected ∨
        ∃ r, net = .resolved r ∧ r.body = some .null) := by
  cases net with
  | rejected => exact ⟨fun _ => Or.inr (Or.inl rfl), fun _ => ⟨_, rfl⟩⟩
  | resolved r =>
    obtain ⟨status, body⟩ := r
    by_cases hok : Response.ok ⟨status, body⟩ = true
    · cases body with
      | none => simp [searchAPIResponse, specFailure, hok]
      | some data =>
        by_cases hn : data = .null
        · subst hn
          simp [searchAPIResponse, hok, getField]
        · rw [searchAPIResponse_of_body status data p hok hn]
          cases hl : data.own "error" with
          | none => simp [truthy, specFailure, hok, hn, hl]
          | some v =>
            by_cases hv : v.truthy = true
            · have hex : ∃ e, (match errorMessage (some v) with
                  | .error e => (Except.error e : Except JsError Json)
                  | .ok message => .error (.backendError message)) = .error e := by
                cases errorMessage (some v) with
                | error e => exact ⟨e, rfl⟩
                | ok m => exact ⟨_, rfl⟩
              simp [truthy, specFailure, hv, hl, hex]
            · simp [truthy, specFailure, hv, hok, hn, hl]
    · simp [searchAPIResponse, specFailure, hok]

/-- After `fetch`, `searchAPI` either throws or returns `data.results || []`. -/
theorem searchAPIResponse_ok_or_error (net : FetchOutcome) (p : Page) :
    (∃ e, (searchAPIResponse net p).2 = Except.error e) ∨
      ∃ r data, net = .resolved r ∧ r.body = some data ∧
        (searchAPIResponse net p).2 = .ok (orEmptyArray (data.own "results")) := by
  cases net with
  | rejected => exact Or.inl ⟨_, rfl⟩
  | resolved r =>
    obtain ⟨status, body⟩ := r
    by_cases hok : Response.ok ⟨status, body⟩ = true
    · cases body with
      | none => exact Or.inl ⟨.syntaxError, by simp [searchAPIResponse, hok]⟩
      | some data =>
        by_cases hn : data = .null
        · subst hn
          exact Or.inl ⟨.typeError, by simp [searchAPIResponse, hok, getField]⟩
        · by_cases ht : truthy (data.own "error") = true
          · refine Or.inl ((searchAPIResponse_fails_iff _ p).mpr (Or.inl ?_))
            cases hl : data.own "error" with
            | none => simp [truthy, hl] at ht
            | some v => simpa [specFailure, hok, hl, truthy] using ht
          · refine Or.inr ⟨_, _, rfl, rfl, ?_⟩
            rw [searchAPIResponse_of_body status data p hok hn, if_neg ht]
    · exact Or.inl ⟨.httpError status, by simp [searchAPIResponse, hok]⟩

/-- Claim C9, amended: `searchAPI` throws exactly when the transport reports a
non-success status, the body is not JSON, the body's `error` property is truthy (for a
string: present and not empty), the request is rejected, the body is the JSON value
`null`, or the query holds an unpaired surrogate (`encodeURIComponent` then throws before
any request); in every other case it returns `data.results || []`, which is the results
array when the body has one and the empty array when the property is absent. -/
theorem searchAPI_fails_iff (query : JsString) (net : FetchOutcome) (p : Page) :
    ((∃ e, (searchAPI query net p).2 = Except.error e) ↔
      ((∃ u, CodePoint.unpaired u ∈ query) ∨ specFailure net = true ∨ net = .rejected ∨
        ∃ r, net = .resolved r ∧ r.body = some .null)) ∧
    ((∃ e, (searchAPI query net p).2 = Except.error e) ∨
      ∃ r data, net = .resolved r ∧ r.body = some data ∧
        (searchAPI query net p).2 = .ok (orEmptyArray (data.own "results"))) ∧
    (∀ xs, orEmptyArray (some (.arr xs)) = .arr xs) ∧
    orEmptyArray none = .arr [] ∧
    (∀ s, (Json.str s).truthy = true ↔ s ≠ []) := by
  refine ⟨?_, ?_, fun _ => rfl, rfl, ?_⟩
  · cases henc : encodeURIComponentJs query with
    | error e =>
      have hfail : ∃ e, (searchAPI query net p).2 = Except.error e :=
        ⟨e, by simp [searchAPI, henc]⟩
      exact ⟨fun _ => Or.inl ((encodeURIComponentJs_error_iff query).mp ⟨e, henc⟩),
        fun _ => hfail⟩
    | ok encoded =>
      have hno : ¬ ∃ u, CodePoint.unpaired u ∈ query := by
        intro hu
        obtain ⟨e, he⟩ := (encodeURIComponentJs_error_iff query).mpr hu
        rw [henc] at he
        exact Except.noConfusion he
      have hs : searchAPI query net p
          = searchAPIResponse net (p.emit (.fetch ("/api/search?q=".toList ++ encoded))) := by
        simp [searchAPI, henc]
      rw [hs, searchAPIResponse_fails_iff]
      exact ⟨fun h => Or.inr h, fun h => h.resolve_left hno⟩
  · cases henc : encodeURIComponentJs query with
    | error e => exact Or.inl ⟨e, by simp [searchAPI, henc]⟩
    | ok encoded =>
      have hs : searchAPI query net p
          = searchAPIResponse net (p.emit (.fetch ("/api/search?q=".toList ++ encoded))) := by
        simp [searchAPI, henc]
      rw [hs]
      exact searchAPIResponse_ok_or_error net _
  · intro s
    cases s <;> simp [Json.truthy]

/-! ## Rendering -/

/-- On a well-typed record `createResultHTML` does not throw and yields the record's
block. -/
theorem createResultHTML_toJson (r : SearchResult) :
    createResultHTML r.toJson = .ok (resultBlock r) := by
  rfl

/-- Rendering a list of well-typed records yields their blocks in order. -/
theorem mapM_createResultHTML (rs : List SearchResult) :
    (rs.map SearchResult.toJson).mapM createResultHTML = .ok (rs.map resultBlock) := by
  induction rs with
  | nil => rfl
  | cons r rs ih =>
    rw [List.map_cons, List.mapM_cons, createResultHTML_toJson, ih]
    rfl

/-- The placeholder and the error block differ at their fourteenth character. -/
theorem noResultsHTML_ne_errorHTML (message : Str) : noResultsHTML ≠ errorHTML message := by
  intro h
  have h13 := congrArg (fun l => l[13]?) h
  have hl : noResultsHTML[13]? = some ' ' := by rfl
  have hr : (errorHTML message)[13]? = some '<' := by rfl
  simp only [hl, hr] at h13
  exact absurd h13 (by decide)

/-- Claim C10 as stated fails on an array that holds a result without a numeric score:
`createResultHTML` throws on the second element, `displayResults` leaves through that
exception, and the results list is not written (on a fresh page it stays empty). -/
theorem displayResults_malformed_result :
    createResultHTML (.obj []) = .error .typeError ∧
    (displayResults (.arr [boostResult.toJson, .obj []]) elapsed120
      (idlePage "boost".toList)).2 = .error .typeError ∧
    (displayResults (.arr [boostResult.toJson, .obj []]) elapsed120
      (idlePage "boost".toList)).1.resultsList = [] := by
  refine ⟨?_, ?_, ?_⟩ <;> rfl

/-- Claim C10, amended: for every array of results on each element of which
`createResultHTML` succeeds, as it does on every record whose title, content and url are
strings and whose score is a number, and for every elapsed time, `displayResults` completes
and sets the count label to `找到 n 个结果` with `n` the length of the array; the results list
is the `no results` placeholder when the array is empty, and otherwise the concatenation, in
order, of the blocks of `createResultHTML`. The block of a well-typed record is the template
filled with the escaped title, content and url, and the placeholder differs from the
markup of `showError` for every message. -/
theorem displayResults_spec (results : List Json) (blocks : List Str)
    (searchTime : JsNumber) (p : Page)
    (hblocks : results.mapM createResultHTML = .ok blocks) :
    (displayResults (.arr results) searchTime p).2 = .ok () ∧
    (displayResults (.arr results) searchTime p).1.resultsCount
      = "找到 ".toList ++ (Nat.repr results.length).toList ++ " 个结果".toList ∧
    (displayResults (.arr results) searchTime p).1.resultsList
      = (if results.isEmpty then
          "\n                <div class=\"no-results\">\n                    <h3>未找到相关结果</h3>\n                    <p>请尝试使用不同的关键词或检查拼写</p>\n                </div>\n            ".toList
        else blocks.flatten) ∧
    (∀ rs : List SearchResult,
      (rs.map SearchResult.toJson).mapM createResultHTML = .ok (rs.map resultBlock)) ∧
    (∀ r : SearchResult, createResultHTML r.toJson = .ok
      ("\n            <div class=\"result-item\">\n                <a href=\"".toList
        ++ escapeHtml r.url ++ "\" class=\"result-title\" target=\"_blank\">".toList
        ++ escapeHtml r.title ++ "</a>\n                <div class=\"result-content\">".toList
        ++ escapeHtml r.content
        ++ "</div>\n                <div class=\"result-meta\">\n                    <a href=\"".toList
        ++ escapeHtml r.url ++ "\" class=\"result-url\" target=\"_blank\">".toList
        ++ escapeHtml r.url ++ "</a>\n                    <span class=\"result-score\">相关度: ".toList
        ++ r.score.fixed3
        ++ "</span>\n                </div>\n            </div>\n        ".toList)) ∧
    (∀ r : SearchResult, resultBlock r =
      "\n            <div class=\"result-item\">\n                <a href=\"".toList
        ++ escapeHtml r.url ++ "\" class=\"result-title\" target=\"_blank\">".toList
        ++ escapeHtml r.title ++ "</a>\n                <div class=\"result-content\">".toList
        ++ escapeHtml r.content
        ++ "</div>\n                <div class=\"result-meta\">\n                    <a href=\"".toList
        ++ escapeHtml r.url ++ "\" class=\"result-url\" target=\"_blank\">".toList
        ++ escapeHtml r.url ++ "</a>\n                    <span class=\"result-score\">相关度: ".toList
        ++ r.score.fixed3
        ++ "</span>\n                </div>\n            </div>\n        ".toList) ∧
    (displayResults (.arr [SearchResult.toJson
        { title := "<Boost> & 库".toList, content := "a < b\u00a0> c".toList,
          url := "http://x/?a=1&b=<2>".toList,
          score := { isZero := false, text := "0.987".toList, fixed3 := "0.987".toList } }])
      searchTime p).1.resultsList
      = "\n            <div class=\"result-item\">\n                <a href=\"http://x/?a=1&amp;b=&lt;2&gt;\" class=\"result-title\" target=\"_blank\">&lt;Boost&gt; &amp; 库</a>\n                <div class=\"result-content\">a &lt; b&nbsp;&gt; c</div>\n                <div class=\"result-meta\">\n                    <a href=\"http://x/?a=1&amp;b=&lt;2&gt;\" class=\"result-url\" target=\"_blank\">http://x/?a=1&amp;b=&lt;2&gt;</a>\n                    <span class=\"result-score\">相关度: 0.987</span>\n                </div>\n            </div>\n        ".toList ∧
    (∀ message,
      "\n                <div class=\"no-results\">\n                    <h3>未找到相关结果</h3>\n                    <p>请尝试使用不同的关键词或检查拼写</p>\n                </div>\n            ".toList
        ≠ errorHTML message) ∧
    (∀ message q,
      "\n                <div class=\"no-results\">\n                    <h3>未找到相关结果</h3>\n                    <p>请尝试使用不同的关键词或检查拼写</p>\n                </div>\n            ".toList
        ≠ (showError message q).resultsList) := by
  have hren : renderAll (.arr results) = .ok blocks.flatten := by
    simp only [renderAll, hblocks]
    rfl
  refine ⟨?_, ?_, ?_, mapM_createResultHTML, createResultHTML_toJson, fun _ => rfl, rfl,
    noResultsHTML_ne_errorHTML, fun message _ => noResultsHTML_ne_errorHTML message⟩
  · cases results with
    | nil => rfl
    | cons r rs =>
      simp only [displayResults, lengthText, hren]
      rfl
  · cases results with
    | nil => rfl
    | cons r rs =>
      simp only [displayResults, lengthText, hren]
      rfl
  · cases results with
    | nil => rfl
    | cons r rs =>
      simp only [displayResults, lengthText, hren]
      rfl

/-- Claim C10 for the single hit of the end-to-end scenario. -/
theorem displayResults_spec_witness :
    [boostResult.toJson].mapM createResultHTML = .ok [resultBlock boostResult] ∧
    (displayResults (.arr [boostResult.toJson]) elapsed120
      (idlePage "boost".toList)).1.resultsCount = "找到 1 个结果".toList :=
  ⟨rfl,
   (displayResults_spec [boostResult.toJson] [resultBlock boostResult] elapsed120
     (idlePage "boost".toList) rfl).2.1⟩

end BoostSearch
